import Mathlib

/-!
Verification of `database/scripts/generate_cross_references.py`.

The script is a thin driver: it resolves two paths, checks that the
source directory exists, constructs a `CrossReferencesGeneratorPSQL`
delegate with the two paths, calls its zero-argument `generate` method,
and prints confirmation messages.  We embed the driver as a function
from an explicit environment (home directory, script directory,
filesystem contents, command-line arguments, working directory) and an
abstract delegate behaviour to a trace of observable events plus an
optional uncaught exception.
-/

/-- Kind of a filesystem entry: `os.path.exists` is true for any of them. -/
inductive EntryKind where
  | file
  | dir
  | other
deriving DecidableEq, Repr

/-- Who performs a filesystem write: the driver itself or the delegate
generator.  The driver source contains no write call, so the embedding
only ever emits delegate writes; the tag keeps the distinction expressible. -/
inductive Actor where
  | driver
  | delegate
deriving DecidableEq, Repr

/-- Abstract Python exception value, carried unchanged through propagation. -/
structure PyExc where
  info : String
deriving DecidableEq, Repr

/-- Observable events of one run of the driver, in order of occurrence. -/
inductive Event where
  /-- read-only `os.path.exists` check performed by the driver -/
  | existsCheck (path : String)
  /-- a `print(...)` call of the driver -/
  | printLine (s : String)
  /-- the `CrossReferencesGeneratorPSQL(source, format)` constructor call -/
  | construct (src dst : String)
  /-- the zero-argument `generate()` call on the constructed object -/
  | generateCall
  /-- a filesystem write of `path`, attributed to `who` -/
  | write (who : Actor) (path : String)
  /-- a `sys.exit(code)` call (never emitted by this driver) -/
  | sysExit (code : Nat)
deriving DecidableEq, Repr

/-- Execution environment of the script.  `fsEntry` maps a path to the kind
of entry present there, if any; `argv` and `cwd` are carried so that
independence from them can be stated, the driver reads neither. -/
structure Env where
  home : String
  scriptDir : String
  fsEntry : String → Option EntryKind
  argv : List String
  cwd : String

/-- Behaviour of the external `CrossReferencesGeneratorPSQL` delegate:
whether its constructor raises, whether `generate` raises, and which
paths `generate` writes. -/
structure Delegate where
  constructExc : Option PyExc
  generateExc : Option PyExc
  generateWrites : List String

/-- Does the second character list lead (begin) the first? -/
def leadsWith : List Char → List Char → Bool
  | _, [] => true
  | [], _ :: _ => false
  | a :: s, b :: t => a = b && leadsWith s t

/-- `strLeads s p` holds when the string `s` begins with `p`. -/
def strLeads (s p : String) : Bool :=
  leadsWith s.data p.data

/-- `strTrails s p` holds when the string `s` ends with `p`. -/
def strTrails (s p : String) : Bool :=
  leadsWith s.data.reverse p.data.reverse

/-- Drop the first `n` characters of a string. -/
def strDrop (s : String) (n : Nat) : String :=
  String.mk (s.data.drop n)

/-- Drop every trailing slash, as CPython's `posixpath.expanduser` does to
the home directory before concatenation. -/
def rstripSlash (s : String) : String :=
  String.mk ((s.data.reverse.dropWhile (fun c => c = '/')).reverse)

/-- Model of `os.path.expanduser` (POSIX, `HOME` set, bare-`~` paths):
a leading `~/` is replaced by the home directory stripped of trailing
slashes, with `/` as fallback when the result would be empty. -/
def expanduser (home p : String) : String :=
  if strLeads p "~/" then
    let r := rstripSlash home ++ strDrop p 1
    if r = "" then "/" else r
  else if p = "~" then
    let r := rstripSlash home
    if r = "" then "/" else r
  else p

/-- Model of the two-argument `os.path.join` on POSIX. -/
def joinPath (a b : String) : String :=
  if strLeads b "/" then b
  else if a = "" || strTrails a "/" then a ++ b
  else a ++ "/" ++ b

/-- Model of `os.path.exists`: true when any entry is present at the path. -/
def osPathExists (env : Env) (p : String) : Bool :=
  (env.fsEntry p).isSome

/-- The literal written in the script for the source directory. -/
def sourceDirTilde : String := "~/Downloads/bible_databases/sources"

/-- `source_directory` as resolved on line 11 of the script. -/
def resolvedSource (env : Env) : String :=
  expanduser env.home sourceDirTilde

/-- `format_directory` as resolved on line 12 of the script. -/
def resolvedFormat (env : Env) : String :=
  joinPath env.scriptDir "output"

/-- First line of the remediation message (line 15). -/
def errLine1 : String := "ERROR: Please download the bible_databases repo first:"

/-- Second line of the remediation message (line 16). -/
def errLine2 : String :=
  "cd ~/Downloads && git clone https://github.com/scrollmapper/bible_databases.git"

/-- The success message of line 23. -/
def successLine : String := "\n✅ Cross-reference SQL file generated!"

/-- The f-string of line 24, naming the expected output subpath. -/
def locationLine (format_directory : String) : String :=
  "📁 Location: " ++ format_directory ++ "/psql/extras/"

/-- Embedding of `main` (lines 9-24): the ordered trace of observable
events together with the uncaught exception, if any.  Delegate writes are
those performed during `generate`; a raising constructor prevents the
`generate` call, and a raising `generate` prevents the confirmation prints. -/
def mainDriver (env : Env) (d : Delegate) : List Event × Option PyExc :=
  let source_directory := expanduser env.home sourceDirTilde
  let format_directory := joinPath env.scriptDir "output"
  if !(osPathExists env source_directory) then
    ([Event.existsCheck source_directory,
      Event.printLine errLine1,
      Event.printLine errLine2], none)
  else
    match d.constructExc with
    | some e =>
        ([Event.existsCheck source_directory,
          Event.construct source_directory format_directory], some e)
    | none =>
        let writes := d.generateWrites.map (Event.write Actor.delegate)
        match d.generateExc with
        | some e =>
            ([Event.existsCheck source_directory,
              Event.construct source_directory format_directory,
              Event.generateCall] ++ writes, some e)
        | none =>
            ([Event.existsCheck source_directory,
              Event.construct source_directory format_directory,
              Event.generateCall] ++ writes ++
             [Event.printLine successLine,
              Event.printLine (locationLine format_directory)], none)

/-- Process exit code of running the script: Python exits with code 1 on an
uncaught exception and 0 when `main` returns normally. -/
def scriptExitCode (env : Env) (d : Delegate) : Nat :=
  match (mainDriver env d).2 with
  | none => 0
  | some _ => 1

/-- The trace component of a run. -/
def mainTrace (env : Env) (d : Delegate) : List Event :=
  (mainDriver env d).1

/-- The uncaught-exception component of a run. -/
def mainExc (env : Env) (d : Delegate) : Option PyExc :=
  (mainDriver env d).2

/-- Whether an event is a constructor call. -/
def Event.isConstruct : Event → Bool
  | Event.construct _ _ => true
  | _ => false

/-- Whether an event is a `generate()` call. -/
def Event.isGenerateCall : Event → Bool
  | Event.generateCall => true
  | _ => false

/-- Whether an event is a filesystem write by the given actor. -/
def Event.isWriteBy (who : Actor) : Event → Bool
  | Event.write a _ => a = who
  | _ => false

/-- A sample environment whose filesystem holds a directory at the resolved
source path, used to instantiate universally quantified theorems. -/
def envDirPresent : Env where
  home := "/home/u"
  scriptDir := "/repo/database/scripts"
  fsEntry := fun p =>
    if p = "/home/u/Downloads/bible_databases/sources" then some EntryKind.dir
    else none
  argv := []
  cwd := "/tmp"

/-- A sample environment with an empty filesystem. -/
def envDirAbsent : Env where
  home := "/home/u"
  scriptDir := "/repo/database/scripts"
  fsEntry := fun _ => none
  argv := []
  cwd := "/tmp"

/-- A sample environment holding a regular file at the resolved source path. -/
def envFilePresent : Env where
  home := "/home/u"
  scriptDir := "/repo/database/scripts"
  fsEntry := fun p =>
    if p = "/home/u/Downloads/bible_databases/sources" then some EntryKind.file
    else none
  argv := []
  cwd := "/tmp"

/-- A delegate that raises nothing and writes one SQL file. -/
def okDelegate : Delegate where
  constructExc := none
  generateExc := none
  generateWrites := ["/repo/database/scripts/output/psql/extras/cross_references.sql"]

/-- C1: when the source directory is absent, `main` prints the two
remediation lines and returns without constructing the delegate or
calling `generate`. -/
theorem c1_missing_source_prints_and_skips_generator (env : Env) (d : Delegate)
    (h : osPathExists env (resolvedSource env) = false) :
    mainTrace env d =
      [Event.existsCheck (resolvedSource env),
       Event.printLine errLine1,
       Event.printLine errLine2] ∧
    (∀ e ∈ mainTrace env d, e.isConstruct = false ∧ e.isGenerateCall = false) := by
  have hmain : mainTrace env d =
      [Event.existsCheck (resolvedSource env),
       Event.printLine errLine1,
       Event.printLine errLine2] := by
    unfold resolvedSource at h ⊢
    simp [mainTrace, mainDriver, h]
  refine ⟨hmain, ?_⟩
  intro e he
  rw [hmain] at he
  simp only [List.mem_cons, List.not_mem_nil, or_false] at he
  rcases he with rfl | rfl | rfl <;>
    simp [Event.isConstruct, Event.isGenerateCall]

/-- Witness for C1 at a concrete environment with an empty filesystem. -/
theorem c1_witness :
    mainTrace envDirAbsent okDelegate =
      [Event.existsCheck (resolvedSource envDirAbsent),
       Event.printLine errLine1,
       Event.printLine errLine2] ∧
    (∀ e ∈ mainTrace envDirAbsent okDelegate,
       e.isConstruct = false ∧ e.isGenerateCall = false) :=
  c1_missing_source_prints_and_skips_generator envDirAbsent okDelegate (by decide)

/-- Characterisation of the run when the path exists and the delegate raises
in its constructor. -/
theorem mainDriver_constructRaises (env : Env) (d : Delegate) (e : PyExc)
    (h : osPathExists env (resolvedSource env) = true)
    (hc : d.constructExc = some e) :
    mainDriver env d =
      ([Event.existsCheck (resolvedSource env),
        Event.construct (resolvedSource env) (resolvedFormat env)], some e) := by
  unfold resolvedSource at h
  unfold resolvedSource resolvedFormat
  simp [mainDriver, h, hc]

/-- Characterisation of the run when the path exists, construction succeeds,
and `generate` raises. -/
theorem mainDriver_generateRaises (env : Env) (d : Delegate) (e : PyExc)
    (h : osPathExists env (resolvedSource env) = true)
    (hc : d.constructExc = none) (hg : d.generateExc = some e) :
    mainDriver env d =
      ([Event.existsCheck (resolvedSource env),
        Event.construct (resolvedSource env) (resolvedFormat env),
        Event.generateCall] ++ d.generateWrites.map (Event.write Actor.delegate),
       some e) := by
  unfold resolvedSource at h
  unfold resolvedSource resolvedFormat
  simp [mainDriver, h, hc, hg]

/-- Characterisation of the run on the full success path. -/
theorem mainDriver_success (env : Env) (d : Delegate)
    (h : osPathExists env (resolvedSource env) = true)
    (hc : d.constructExc = none) (hg : d.generateExc = none) :
    mainDriver env d =
      ([Event.existsCheck (resolvedSource env),
        Event.construct (resolvedSource env) (resolvedFormat env),
        Event.generateCall] ++ d.generateWrites.map (Event.write Actor.delegate) ++
       [Event.printLine successLine,
        Event.printLine (locationLine (resolvedFormat env))],
       none) := by
  unfold resolvedSource at h
  unfold resolvedSource resolvedFormat
  simp [mainDriver, h, hc, hg]

/-- Characterisation of the run when the source path is missing. -/
theorem mainDriver_missing (env : Env) (d : Delegate)
    (h : osPathExists env (resolvedSource env) = false) :
    mainDriver env d =
      ([Event.existsCheck (resolvedSource env),
        Event.printLine errLine1,
        Event.printLine errLine2], none) := by
  unfold resolvedSource at h ⊢
  simp [mainDriver, h]

/-- Counting with a predicate that rejects write events sees nothing in the
mapped list of delegate writes. -/
theorem countP_writes_eq_zero (l : List String) (p : Event → Bool)
    (hp : ∀ s, p (Event.write Actor.delegate s) = false) :
    (l.map (Event.write Actor.delegate)).countP p = 0 := by
  induction l with
  | nil => rfl
  | cons a t ih => simp [List.countP_cons, hp, ih]

/-- A print event never occurs among the mapped delegate writes. -/
theorem printLine_not_mem_writes (l : List String) (s : String) :
    Event.printLine s ∉ l.map (Event.write Actor.delegate) := by
  simp [List.mem_map]

/-- Every member of the mapped delegate-write list is a delegate write of a
path drawn from the write list. -/
theorem mem_writes_elim {l : List String} {e : Event}
    (he : e ∈ l.map (Event.write Actor.delegate)) :
    ∃ p, p ∈ l ∧ e = Event.write Actor.delegate p := by
  rcases List.mem_map.mp he with ⟨p, hp, hpe⟩
  exact ⟨p, hp, hpe.symm⟩

/-- C2: when the source directory exists and the delegate constructor does
not raise, the trace holds exactly one constructor call, that call receives
precisely the resolved source and format paths in that order, and exactly
one `generate()` call occurs. -/
theorem c2_present_constructs_and_generates_once (env : Env) (d : Delegate)
    (h : osPathExists env (resolvedSource env) = true)
    (hc : d.constructExc = none) :
    (mainTrace env d).countP Event.isConstruct = 1 ∧
    Event.construct (resolvedSource env) (resolvedFormat env) ∈ mainTrace env d ∧
    (∀ s t, Event.construct s t ∈ mainTrace env d →
       s = resolvedSource env ∧ t = resolvedFormat env) ∧
    (mainTrace env d).countP Event.isGenerateCall = 1 := by
  have hw1 := countP_writes_eq_zero d.generateWrites Event.isConstruct (fun _ => rfl)
  have hw2 := countP_writes_eq_zero d.generateWrites Event.isGenerateCall (fun _ => rfl)
  cases hg : d.generateExc with
  | some e =>
      have htr := mainDriver_generateRaises env d e h hc hg
      have htrace : mainTrace env d =
          [Event.existsCheck (resolvedSource env),
           Event.construct (resolvedSource env) (resolvedFormat env),
           Event.generateCall] ++ d.generateWrites.map (Event.write Actor.delegate) := by
        simp [mainTrace, htr]
      refine ⟨?_, ?_, ?_, ?_⟩
      · simp [htrace, List.countP_append, List.countP_cons, Event.isConstruct,
              Event.isGenerateCall, hw1]
      · simp [htrace]
      · intro s t hst
        rw [htrace] at hst
        rcases List.mem_append.mp hst with hmem | hmem
        · simp at hmem
          exact ⟨hmem.1, hmem.2⟩
        · rcases mem_writes_elim hmem with ⟨p, _, hpe⟩
          cases hpe
      · simp [htrace, List.countP_append, List.countP_cons, Event.isConstruct,
              Event.isGenerateCall, hw2]
  | none =>
      have htr := mainDriver_success env d h hc hg
      have htrace : mainTrace env d =
          [Event.existsCheck (resolvedSource env),
           Event.construct (resolvedSource env) (resolvedFormat env),
           Event.generateCall] ++ d.generateWrites.map (Event.write Actor.delegate) ++
          [Event.printLine successLine,
           Event.printLine (locationLine (resolvedFormat env))] := by
        simp [mainTrace, htr]
      refine ⟨?_, ?_, ?_, ?_⟩
      · simp [htrace, List.countP_append, List.countP_cons, Event.isConstruct,
              Event.isGenerateCall, hw1]
      · simp [htrace]
      · intro s t hst
        rw [htrace] at hst
        rcases List.mem_append.mp hst with hmem | hmem
        · rcases List.mem_append.mp hmem with hmem2 | hmem2
          · simp at hmem2
            exact ⟨hmem2.1, hmem2.2⟩
          · rcases mem_writes_elim hmem2 with ⟨p, _, hpe⟩
            cases hpe
        · simp at hmem
      · simp [htrace, List.countP_append, List.countP_cons, Event.isConstruct,
              Event.isGenerateCall, hw2]

/-- Witness for C2 at a concrete environment holding the source directory
and a non-raising delegate. -/
theorem c2_witness :
    (mainTrace envDirPresent okDelegate).countP Event.isConstruct = 1 ∧
    Event.construct (resolvedSource envDirPresent) (resolvedFormat envDirPresent) ∈
      mainTrace envDirPresent okDelegate ∧
    (∀ s t, Event.construct s t ∈ mainTrace envDirPresent okDelegate →
       s = resolvedSource envDirPresent ∧ t = resolvedFormat envDirPresent) ∧
    (mainTrace envDirPresent okDelegate).countP Event.isGenerateCall = 1 :=
  c2_present_constructs_and_generates_once envDirPresent okDelegate (by decide) rfl

/-- C3: on every execution path the driver performs no filesystem write:
no event of the trace is a driver write, and every write event is a
delegate write of one of the delegate's paths, occurring only in runs that
reached the `generate()` call. -/
theorem c3_driver_never_writes (env : Env) (d : Delegate) :
    (∀ e ∈ mainTrace env d, e.isWriteBy Actor.driver = false) ∧
    (∀ who p, Event.write who p ∈ mainTrace env d →
       who = Actor.delegate ∧ p ∈ d.generateWrites ∧
       Event.generateCall ∈ mainTrace env d) := by
  cases hb : osPathExists env (resolvedSource env) with
  | false =>
      have htr := mainDriver_missing env d hb
      have htrace : mainTrace env d =
          [Event.existsCheck (resolvedSource env),
           Event.printLine errLine1, Event.printLine errLine2] := by
        simp [mainTrace, htr]
      constructor
      · intro e he
        rw [htrace] at he
        simp only [List.mem_cons, List.not_mem_nil, or_false] at he
        rcases he with rfl | rfl | rfl <;> rfl
      · intro who p hmem
        rw [htrace] at hmem
        simp at hmem
  | true =>
      cases hc : d.constructExc with
      | some e =>
          have htr := mainDriver_constructRaises env d e hb hc
          have htrace : mainTrace env d =
              [Event.existsCheck (resolvedSource env),
               Event.construct (resolvedSource env) (resolvedFormat env)] := by
            simp [mainTrace, htr]
          constructor
          · intro ev hev
            rw [htrace] at hev
            simp only [List.mem_cons, List.not_mem_nil, or_false] at hev
            rcases hev with rfl | rfl <;> rfl
          · intro who p hmem
            rw [htrace] at hmem
            simp at hmem
      | none =>
          have hkey : mainTrace env d =
              [Event.existsCheck (resolvedSource env),
               Event.construct (resolvedSource env) (resolvedFormat env),
               Event.generateCall] ++ d.generateWrites.map (Event.write Actor.delegate) ∨
              mainTrace env d =
              [Event.existsCheck (resolvedSource env),
               Event.construct (resolvedSource env) (resolvedFormat env),
               Event.generateCall] ++ d.generateWrites.map (Event.write Actor.delegate) ++
              [Event.printLine successLine,
               Event.printLine (locationLine (resolvedFormat env))] := by
            cases hg : d.generateExc with
            | some ex =>
                exact Or.inl (by simp [mainTrace, mainDriver_generateRaises env d ex hb hc hg])
            | none =>
                exact Or.inr (by simp [mainTrace, mainDriver_success env d hb hc hg])
          have hgen : Event.generateCall ∈ mainTrace env d := by
            rcases hkey with htrace | htrace <;> simp [htrace]
          constructor
          · intro ev hev
            have hev2 : ev ∈
                [Event.existsCheck (resolvedSource env),
                 Event.construct (resolvedSource env) (resolvedFormat env),
                 Event.generateCall] ++ d.generateWrites.map (Event.write Actor.delegate) ∨
                ev ∈ [Event.printLine successLine,
                      Event.printLine (locationLine (resolvedFormat env))] := by
              rcases hkey with htrace | htrace
              · rw [htrace] at hev; exact Or.inl hev
              · rw [htrace] at hev
                rcases List.mem_append.mp hev with h2 | h2
                · exact Or.inl h2
                · exact Or.inr h2
            rcases hev2 with h2 | h2
            · rcases List.mem_append.mp h2 with h3 | h3
              · simp only [List.mem_cons, List.not_mem_nil, or_false] at h3
                rcases h3 with rfl | rfl | rfl <;> rfl
              · rcases mem_writes_elim h3 with ⟨p, _, rfl⟩
                rfl
            · simp only [List.mem_cons, List.not_mem_nil, or_false] at h2
              rcases h2 with rfl | rfl <;> rfl
          · intro who p hmem
            have hmem2 : Event.write who p ∈
                d.generateWrites.map (Event.write Actor.delegate) := by
              rcases hkey with htrace | htrace
              · rw [htrace] at hmem
                rcases List.mem_append.mp hmem with h2 | h2
                · simp at h2
                · exact h2
              · rw [htrace] at hmem
                rcases List.mem_append.mp hmem with h2 | h2
                · rcases List.mem_append.mp h2 with h3 | h3
                  · simp at h3
                  · exact h3
                · simp at h2
            rcases mem_writes_elim hmem2 with ⟨q, hq, heq⟩
            cases heq
            exact ⟨rfl, hq, hgen⟩

/-- C4: with the source directory missing, the run raises no exception,
the process exit code is zero, and no `sys.exit` call occurs. -/
theorem c4_missing_source_plain_return (env : Env) (d : Delegate)
    (h : osPathExists env (resolvedSource env) = false) :
    mainExc env d = none ∧
    scriptExitCode env d = 0 ∧
    (∀ c, Event.sysExit c ∉ mainTrace env d) := by
  have htr := mainDriver_missing env d h
  refine ⟨?_, ?_, ?_⟩
  · simp [mainExc, htr]
  · simp [scriptExitCode, htr]
  · intro c
    simp [mainTrace, htr]

/-- Witness for C4 at a concrete environment with an empty filesystem. -/
theorem c4_witness :
    mainExc envDirAbsent okDelegate = none ∧
    scriptExitCode envDirAbsent okDelegate = 0 ∧
    (∀ c, Event.sysExit c ∉ mainTrace envDirAbsent okDelegate) :=
  c4_missing_source_plain_return envDirAbsent okDelegate (by decide)

/-- The tail of the source literal after the tilde has 34 characters. -/
theorem sourceTail_length : (strDrop sourceDirTilde 1).data.length = 34 := by decide

/-- Appending the tail of the source literal to any string is non-empty. -/
theorem append_sourceTail_ne_empty (s : String) :
    s ++ strDrop sourceDirTilde 1 ≠ "" := by
  intro h
  have h2 := congrArg (fun t : String => t.data.length) h
  simp only [String.data_append, List.length_append, sourceTail_length] at h2
  have h0 : ("" : String).data.length = 0 := rfl
  rw [h0] at h2
  omega

/-- The source path resolves to the home directory (stripped of trailing
slashes) extended by the fixed suffix. -/
theorem resolvedSource_eq (env : Env) :
    resolvedSource env = rstripSlash env.home ++ "/Downloads/bible_databases/sources" := by
  have h1 : strLeads sourceDirTilde "~/" = true := by decide
  have h2 : strDrop sourceDirTilde 1 = "/Downloads/bible_databases/sources" := by decide
  unfold resolvedSource expanduser
  rw [h1]
  simp only [if_true]
  rw [if_neg (append_sourceTail_ne_empty (rstripSlash env.home)), h2]

/-- C5: `source_directory` is the fixed home-relative path expanded against
the user's home, `format_directory` is the `output` subdirectory of the
script's own directory, and the whole run is unaffected by the current
working directory. -/
theorem c5_fixed_path_resolution (env : Env) (d : Delegate) (c1 c2 : String) :
    resolvedSource env = rstripSlash env.home ++ "/Downloads/bible_databases/sources" ∧
    (env.scriptDir ≠ "" → strTrails env.scriptDir "/" = false →
      resolvedFormat env = env.scriptDir ++ "/" ++ "output") ∧
    mainDriver { env with cwd := c1 } d = mainDriver { env with cwd := c2 } d := by
  refine ⟨resolvedSource_eq env, ?_, rfl⟩
  intro h1 h2
  have h3 : strLeads "output" "/" = false := by decide
  unfold resolvedFormat joinPath
  rw [h3]
  simp [h1, h2]

/-- Witness for C5 at a concrete environment. -/
theorem c5_witness :
    resolvedSource envDirPresent =
      rstripSlash envDirPresent.home ++ "/Downloads/bible_databases/sources" ∧
    (envDirPresent.scriptDir ≠ "" → strTrails envDirPresent.scriptDir "/" = false →
      resolvedFormat envDirPresent = envDirPresent.scriptDir ++ "/" ++ "output") ∧
    mainDriver { envDirPresent with cwd := "/a" } okDelegate =
      mainDriver { envDirPresent with cwd := "/b" } okDelegate :=
  c5_fixed_path_resolution envDirPresent okDelegate "/a" "/b"

/-- C6: on the success path the trace ends with the two confirmation
prints, the second of which names the expected output subpath: the format
directory followed by `/psql/extras/`. -/
theorem c6_success_prints_location (env : Env) (d : Delegate)
    (h : osPathExists env (resolvedSource env) = true)
    (hc : d.constructExc = none) (hg : d.generateExc = none) :
    (∃ pre, mainTrace env d = pre ++
       [Event.printLine successLine,
        Event.printLine (locationLine (resolvedFormat env))]) ∧
    locationLine (resolvedFormat env) =
      "📁 Location: " ++ resolvedFormat env ++ "/psql/extras/" := by
  have htr := mainDriver_success env d h hc hg
  refine ⟨⟨[Event.existsCheck (resolvedSource env),
            Event.construct (resolvedSource env) (resolvedFormat env),
            Event.generateCall] ++ d.generateWrites.map (Event.write Actor.delegate), ?_⟩, rfl⟩
  simp [mainTrace, htr]

/-- Witness for C6 at a concrete environment and a non-raising delegate. -/
theorem c6_witness :
    (∃ pre, mainTrace envDirPresent okDelegate = pre ++
       [Event.printLine successLine,
        Event.printLine (locationLine (resolvedFormat envDirPresent))]) ∧
    locationLine (resolvedFormat envDirPresent) =
      "📁 Location: " ++ resolvedFormat envDirPresent ++ "/psql/extras/" :=
  c6_success_prints_location envDirPresent okDelegate (by decide) rfl rfl

/-- C7: the driver re-raises exactly the delegate's exception: a run ends
with an uncaught exception precisely when the source directory exists and
either the constructor raised it or the constructor succeeded and
`generate` raised it. -/
theorem c7_exception_propagation (env : Env) (d : Delegate) (e : PyExc) :
    mainExc env d = some e ↔
      (osPathExists env (resolvedSource env) = true ∧
        (d.constructExc = some e ∨
          (d.constructExc = none ∧ d.generateExc = some e))) := by
  cases hb : osPathExists env (resolvedSource env) with
  | false =>
      have htr := mainDriver_missing env d hb
      simp [mainExc, htr]
  | true =>
      cases hc : d.constructExc with
      | some ex =>
          have htr := mainDriver_constructRaises env d ex hb hc
          simp [mainExc, htr]
      | none =>
          cases hg : d.generateExc with
          | some ex =>
              have htr := mainDriver_generateRaises env d ex hb hc hg
              simp [mainExc, htr]
          | none =>
              have htr := mainDriver_success env d hb hc hg
              simp [mainExc, htr]

/-- C8: the run is identical whatever the command-line arguments are: the
driver consumes none of them. -/
theorem c8_no_cli_arguments (env : Env) (d : Delegate) (a1 a2 : List String) :
    mainDriver { env with argv := a1 } d = mainDriver { env with argv := a2 } d :=
  rfl


/-- The location message always begins with the folder emoji, whatever the
format directory is. -/
theorem locationLine_head (s : String) : (locationLine s).data.head? = some '📁' := by
  have h1 : ("📁 Location: " : String).data.head? = some '📁' := by decide
  simp [locationLine, String.data_append, List.head?_append, h1]

/-- The remediation message differs from the success message. -/
theorem errLine1_ne_successLine : errLine1 ≠ successLine := by decide

/-- The remediation message differs from every location message. -/
theorem errLine1_ne_locationLine (s : String) : errLine1 ≠ locationLine s := by
  intro h
  have h2 : errLine1.data.head? = (locationLine s).data.head? := by rw [h]
  rw [locationLine_head] at h2
  exact absurd h2 (by decide)

/-- Replacing whatever entry sits at the source path by a directory,
leaving the rest of the filesystem alone. -/
def dirAtSource (env : Env) : Env :=
  { env with fsEntry := fun p =>
      if p = resolvedSource env then some EntryKind.dir else env.fsEntry p }

/-- With a directory written at the source path, the existence check holds. -/
theorem dirAtSource_check (env : Env) :
    osPathExists (dirAtSource env) (resolvedSource (dirAtSource env)) = true := by
  have hentry : (dirAtSource env).fsEntry (resolvedSource (dirAtSource env)) =
      some EntryKind.dir := by
    show (if resolvedSource (dirAtSource env) = resolvedSource env then some EntryKind.dir
          else env.fsEntry (resolvedSource (dirAtSource env))) = some EntryKind.dir
    rw [if_pos (show resolvedSource (dirAtSource env) = resolvedSource env from rfl)]
  show ((dirAtSource env).fsEntry (resolvedSource (dirAtSource env))).isSome = true
  rw [hentry]
  rfl

/-- C9: the precondition check tests only existence, not directory-ness:
with a regular file at the source path the error branch is skipped, the
generator is constructed (and `generate` invoked when construction does
not raise), and the run is indistinguishable from one with a directory
at that path. -/
theorem c9_existence_check_ignores_entry_kind (env : Env) (d : Delegate)
    (h : env.fsEntry (resolvedSource env) = some EntryKind.file) :
    Event.printLine errLine1 ∉ mainTrace env d ∧
    Event.construct (resolvedSource env) (resolvedFormat env) ∈ mainTrace env d ∧
    (d.constructExc = none → Event.generateCall ∈ mainTrace env d) ∧
    mainDriver env d = mainDriver (dirAtSource env) d := by
  have hb : osPathExists env (resolvedSource env) = true := by
    simp [osPathExists, h]
  have hb2 := dirAtSource_check env
  have heq : mainDriver env d = mainDriver (dirAtSource env) d := by
    cases hc : d.constructExc with
    | some e =>
        exact (mainDriver_constructRaises env d e hb hc).trans
          (mainDriver_constructRaises (dirAtSource env) d e hb2 hc).symm
    | none =>
        cases hg : d.generateExc with
        | some e =>
            exact (mainDriver_generateRaises env d e hb hc hg).trans
              (mainDriver_generateRaises (dirAtSource env) d e hb2 hc hg).symm
        | none =>
            exact (mainDriver_success env d hb hc hg).trans
              (mainDriver_success (dirAtSource env) d hb2 hc hg).symm
  refine ⟨?_, ?_, ?_, heq⟩
  · cases hc : d.constructExc with
    | some e =>
        have htrace : mainTrace env d =
            [Event.existsCheck (resolvedSource env),
             Event.construct (resolvedSource env) (resolvedFormat env)] := by
          simp [mainTrace, mainDriver_constructRaises env d e hb hc]
        rw [htrace]
        simp
    | none =>
        cases hg : d.generateExc with
        | some e =>
            have htrace : mainTrace env d =
                [Event.existsCheck (resolvedSource env),
                 Event.construct (resolvedSource env) (resolvedFormat env),
                 Event.generateCall] ++
                d.generateWrites.map (Event.write Actor.delegate) := by
              simp [mainTrace, mainDriver_generateRaises env d e hb hc hg]
            rw [htrace]
            intro hmem
            rcases List.mem_append.mp hmem with h2 | h2
            · simp at h2
            · exact printLine_not_mem_writes _ _ h2
        | none =>
            have htrace : mainTrace env d =
                [Event.existsCheck (resolvedSource env),
                 Event.construct (resolvedSource env) (resolvedFormat env),
                 Event.generateCall] ++
                d.generateWrites.map (Event.write Actor.delegate) ++
                [Event.printLine successLine,
                 Event.printLine (locationLine (resolvedFormat env))] := by
              simp [mainTrace, mainDriver_success env d hb hc hg]
            rw [htrace]
            intro hmem
            rcases List.mem_append.mp hmem with h2 | h2
            · rcases List.mem_append.mp h2 with h3 | h3
              · simp at h3
              · exact printLine_not_mem_writes _ _ h3
            · simp only [List.mem_cons, List.not_mem_nil, or_false] at h2
              rcases h2 with h2 | h2
              · exact errLine1_ne_successLine (by injection h2)
              · exact errLine1_ne_locationLine _ (by injection h2)
  · cases hc : d.constructExc with
    | some e =>
        have htr := mainDriver_constructRaises env d e hb hc
        simp [mainTrace, htr]
    | none =>
        cases hg : d.generateExc with
        | some e =>
            have htr := mainDriver_generateRaises env d e hb hc hg
            simp [mainTrace, htr]
        | none =>
            have htr := mainDriver_success env d hb hc hg
            simp [mainTrace, htr]
  · intro hc
    cases hg : d.generateExc with
    | some e =>
        have htr := mainDriver_generateRaises env d e hb hc hg
        simp [mainTrace, htr]
    | none =>
        have htr := mainDriver_success env d hb hc hg
        simp [mainTrace, htr]

/-- Witness for C9 at a concrete environment holding a regular file at the
source path. -/
theorem c9_witness :
    Event.printLine errLine1 ∉ mainTrace envFilePresent okDelegate ∧
    Event.construct (resolvedSource envFilePresent) (resolvedFormat envFilePresent) ∈
      mainTrace envFilePresent okDelegate ∧
    (okDelegate.constructExc = none →
      Event.generateCall ∈ mainTrace envFilePresent okDelegate) ∧
    mainDriver envFilePresent okDelegate = mainDriver (dirAtSource envFilePresent) okDelegate :=
  c9_existence_check_ignores_entry_kind envFilePresent okDelegate (by decide)

/-- C10: with the source directory present, the success-path effects occur
in the fixed order existence check, construction, `generate` call, delegate
writes, then the two confirmation prints; and neither confirmation message
is printed in a run where construction or `generate` raises. -/
theorem c10_order_and_confirmation_gating (env : Env) (d : Delegate)
    (h : osPathExists env (resolvedSource env) = true) :
    (d.constructExc = none → d.generateExc = none →
      mainTrace env d =
        [Event.existsCheck (resolvedSource env),
         Event.construct (resolvedSource env) (resolvedFormat env),
         Event.generateCall] ++
        d.generateWrites.map (Event.write Actor.delegate) ++
        [Event.printLine successLine,
         Event.printLine (locationLine (resolvedFormat env))]) ∧
    (∀ e, d.constructExc = some e ∨ d.generateExc = some e →
      Event.printLine successLine ∉ mainTrace env d ∧
      Event.printLine (locationLine (resolvedFormat env)) ∉ mainTrace env d) := by
  constructor
  · intro hc hg
    simp [mainTrace, mainDriver_success env d h hc hg]
  · intro e he
    cases hc : d.constructExc with
    | some ex =>
        have htrace : mainTrace env d =
            [Event.existsCheck (resolvedSource env),
             Event.construct (resolvedSource env) (resolvedFormat env)] := by
          simp [mainTrace, mainDriver_constructRaises env d ex h hc]
        rw [htrace]
        constructor <;> simp
    | none =>
        have hg : d.generateExc = some e := by
          rcases he with he | he
          · rw [hc] at he
            exact Option.noConfusion he
          · exact he
        have htrace : mainTrace env d =
            [Event.existsCheck (resolvedSource env),
             Event.construct (resolvedSource env) (resolvedFormat env),
             Event.generateCall] ++
            d.generateWrites.map (Event.write Actor.delegate) := by
          simp [mainTrace, mainDriver_generateRaises env d e h hc hg]
        rw [htrace]
        constructor <;>
        · intro hmem
          rcases List.mem_append.mp hmem with h2 | h2
          · simp at h2
          · exact printLine_not_mem_writes _ _ h2

/-- Witness for C10 at a concrete environment with the directory present. -/
theorem c10_witness :
    (okDelegate.constructExc = none → okDelegate.generateExc = none →
      mainTrace envDirPresent okDelegate =
        [Event.existsCheck (resolvedSource envDirPresent),
         Event.construct (resolvedSource envDirPresent) (resolvedFormat envDirPresent),
         Event.generateCall] ++
        okDelegate.generateWrites.map (Event.write Actor.delegate) ++
        [Event.printLine successLine,
         Event.printLine (locationLine (resolvedFormat envDirPresent))]) ∧
    (∀ e, okDelegate.constructExc = some e ∨ okDelegate.generateExc = some e →
      Event.printLine successLine ∉ mainTrace envDirPresent okDelegate ∧
      Event.printLine (locationLine (resolvedFormat envDirPresent)) ∉
        mainTrace envDirPresent okDelegate) :=
  c10_order_and_confirmation_gating envDirPresent okDelegate (by decide)
